import Mathlib

/-!
Verification of the `docs/content/mca.ipynb` notebook of the prince
repository.  The notebook is a linear sequence of Python statements spread
over code cells; we embed its statements as an abstract syntax tree,
embed the tables it displays, and model the parts of the prince library
the notebook exercises (its sources are not part of this fragment) from
the specification's description of them.
-/

namespace MCANotebook

/-- A Python literal as used in keyword arguments of the notebook. -/
inductive Lit
  | int (n : Int)
  | str (s : String)
  | bool (b : Bool)
deriving DecidableEq, Repr

/-- A positional argument of a call.  In this notebook every positional
argument is either a variable reference or a string literal. -/
inductive Arg
  | name (v : String)
  | str (s : String)
deriving DecidableEq, Repr

/-- A Python expression of the fragment's grammar: variable references,
attribute access, calls (with positional and keyword arguments), and -
so that their absence is expressible - `await`. -/
inductive Expr
  | name (v : String)
  | attr (e : Expr) (field : String)
  | call (f : Expr) (args : List Arg) (kwargs : List (String × Lit))
  | await (e : Expr)
deriving DecidableEq, Repr

/-- A Python statement of the fragment's grammar.  Control-flow
constructs (`if`, `for`, `while`, `try`) are part of the grammar so that
the spec's claim that none occurs is a statement about this type. -/
inductive Stmt
  | importAs (module asName : String)
  | assign (target : String) (e : Expr)
  | colsAssign (obj field : String) (vals : List String)
  | exprStmt (e : Expr)
  | ifStmt (cond : Expr) (thenS elseS : Stmt)
  | forStmt (var : String) (iter : Expr) (body : Stmt)
  | whileStmt (cond : Expr) (body : Stmt)
  | tryStmt (body handler : Stmt)
deriving DecidableEq, Repr

/-- URL passed to `pd.read_csv` in the first code cell. -/
def balloonsURL : String :=
  "https://archive.ics.uci.edu/ml/machine-learning-databases/balloons/adult+stretch.data"

/-- Column names assigned to the dataset right after the CSV read. -/
def balloonColumns : List String := ["Color", "Size", "Action", "Age", "Inflated"]

/-- Keyword arguments of the primary `prince.MCA(...)` constructor call. -/
def primaryMCAKwargs : List (String × Lit) :=
  [("n_components", .int 3), ("n_iter", .int 3), ("copy", .bool true),
   ("check_input", .bool true), ("engine", .str "sklearn"), ("random_state", .int 42)]

/-- First code cell: import pandas, read the CSV, rename the columns,
display the head of the dataset. -/
def cellData : List Stmt :=
  [ .importAs "pandas" "pd",
    .assign "dataset" (.call (.attr (.name "pd") "read_csv") [.str balloonsURL] []),
    .colsAssign "dataset" "columns" balloonColumns,
    .exprStmt (.call (.attr (.name "dataset") "head") [] []) ]

/-- Second code cell: import prince, build the primary MCA, fit it. -/
def cellFit : List Stmt :=
  [ .importAs "prince" "prince",
    .assign "mca" (.call (.attr (.name "prince") "MCA") [] primaryMCAKwargs),
    .assign "mca" (.call (.attr (.name "mca") "fit") [.name "dataset"] []) ]

/-- Third code cell: one-hot encode the dataset, build a second MCA with
`one_hot=False`, fit it on the pre-encoded matrix. -/
def cellNoOneHot : List Stmt :=
  [ .assign "one_hot" (.call (.attr (.name "pd") "get_dummies") [.name "dataset"] []),
    .assign "mca_no_one_hot" (.call (.attr (.name "prince") "MCA") [] [("one_hot", .bool false)]),
    .assign "mca_no_one_hot" (.call (.attr (.name "mca_no_one_hot") "fit") [.name "one_hot"] []) ]

/-- Eigenvalues cell. -/
def cellEigenvalues : List Stmt :=
  [ .exprStmt (.attr (.name "mca") "eigenvalues_summary") ]

/-- Row-coordinates cell: `mca.row_coordinates(dataset).head()`. -/
def cellRowCoords : List Stmt :=
  [ .exprStmt (.call (.attr
      (.call (.attr (.name "mca") "row_coordinates") [.name "dataset"] []) "head") [] []) ]

/-- Column-coordinates cell: `mca.column_coordinates(dataset).head()`. -/
def cellColCoords : List Stmt :=
  [ .exprStmt (.call (.attr
      (.call (.attr (.name "mca") "column_coordinates") [.name "dataset"] []) "head") [] []) ]

/-- Visualization cell: the single `mca.plot(...)` call. -/
def cellPlot : List Stmt :=
  [ .exprStmt (.call (.attr (.name "mca") "plot") [.name "dataset"]
      [("x_component", .int 0), ("y_component", .int 1)]) ]

/-- Row-contributions cell:
`mca.row_contributions_.head().style.format('\x7b:.0%\x7d')`. -/
def cellRowContribs : List Stmt :=
  [ .exprStmt (.call (.attr (.attr
      (.call (.attr (.attr (.name "mca") "row_contributions_") "head") [] []) "style")
      "format") [.str "\x7b:.0%\x7d"] []) ]

/-- Column-contributions cell. -/
def cellColContribs : List Stmt :=
  [ .exprStmt (.call (.attr (.attr
      (.call (.attr (.attr (.name "mca") "column_contributions_") "head") [] []) "style")
      "format") [.str "\x7b:.0%\x7d"] []) ]

/-- Row cosine-similarities cell. -/
def cellRowCos : List Stmt :=
  [ .exprStmt (.call (.attr
      (.call (.attr (.name "mca") "row_cosine_similarities") [.name "dataset"] []) "head") [] []) ]

/-- Column cosine-similarities cell. -/
def cellColCos : List Stmt :=
  [ .exprStmt (.call (.attr
      (.call (.attr (.name "mca") "column_cosine_similarities") [.name "dataset"] []) "head") [] []) ]

/-- The notebook's code cells in document order. -/
def notebookCells : List (List Stmt) :=
  [cellData, cellFit, cellNoOneHot, cellEigenvalues, cellRowCoords, cellColCoords,
   cellPlot, cellRowContribs, cellColContribs, cellRowCos, cellColCos]

/-- All statements of the notebook in document order. -/
def notebookStmts : List Stmt := notebookCells.flatten

/-! ### Syntactic predicates over the embedded program -/

/-- Is the statement, at its top level, a control-flow construct
(`if`, `for`, `while`, `try`)? -/
def Stmt.isControlFlow : Stmt → Bool
  | .ifStmt .. | .forStmt .. | .whileStmt .. | .tryStmt .. => true
  | _ => false

/-- Does the statement contain a `try` handler anywhere (also nested)? -/
def Stmt.hasTry : Stmt → Bool
  | .tryStmt .. => true
  | .ifStmt _ t e => t.hasTry || e.hasTry
  | .forStmt _ _ b => b.hasTry
  | .whileStmt _ b => b.hasTry
  | _ => false

/-- All expressions occurring in a statement (going under control-flow
bodies as well). -/
def Stmt.exprs : Stmt → List Expr
  | .assign _ e => [e]
  | .exprStmt e => [e]
  | .ifStmt c t e => c :: (t.exprs ++ e.exprs)
  | .forStmt _ it b => it :: b.exprs
  | .whileStmt c b => c :: b.exprs
  | .tryStmt b h => b.exprs ++ h.exprs
  | _ => []

/-- Does the expression contain an `await`? -/
def Expr.hasAwait : Expr → Bool
  | .await _ => true
  | .attr e _ => e.hasAwait
  | .call f _ _ => f.hasAwait
  | .name _ => false

/-- Number of calls in the expression whose callee is an attribute named
`m` (method calls `recv.m(...)`), counted over the whole call spine. -/
def Expr.countMethodCalls (m : String) : Expr → Nat
  | .call f _ _ =>
      (match f with
       | .attr _ g => if g == m then 1 else 0
       | _ => 0) + f.countMethodCalls m
  | .attr e _ => e.countMethodCalls m
  | .await e => e.countMethodCalls m
  | .name _ => 0

/-- Does the expression contain a call `r.m(...)` on the variable `r`? -/
def Expr.hasCallOn (r m : String) : Expr → Bool
  | .call f _ _ =>
      (match f with
       | .attr (.name v) g => v == r && g == m
       | _ => false) || f.hasCallOn r m
  | .attr e _ => e.hasCallOn r m
  | .await e => e.hasCallOn r m
  | .name _ => false

/-- Does the expression mention an attribute access named `f` anywhere
(either read or as the callee of a method call)? -/
def Expr.mentionsAttr (a : String) : Expr → Bool
  | .attr e g => g == a || e.mentionsAttr a
  | .call f _ _ => f.mentionsAttr a
  | .await e => e.mentionsAttr a
  | .name _ => false

/-- All `(method, positional arguments)` pairs of method calls occurring
in the expression. -/
def Expr.methodCallArgs : Expr → List (String × List Arg)
  | .call f args _ =>
      (match f with
       | .attr _ g => [(g, args)]
       | _ => []) ++ f.methodCallArgs
  | .attr e _ => e.methodCallArgs
  | .await e => e.methodCallArgs
  | .name _ => []

/-- Statement-level lift of `Expr.hasCallOn`. -/
def Stmt.hasCallOn (r m : String) (s : Stmt) : Bool :=
  s.exprs.any (Expr.hasCallOn r m)

/-- Statement-level lift of `Expr.mentionsAttr`. -/
def Stmt.mentionsAttr (a : String) (s : Stmt) : Bool :=
  s.exprs.any (Expr.mentionsAttr a)

/-- Number of calls to method `m` in a statement. -/
def Stmt.countMethodCalls (m : String) (s : Stmt) : Nat :=
  (s.exprs.map (Expr.countMethodCalls m)).sum

/-- Does the statement call method `m` (on any receiver)? -/
def Stmt.callsMethod (m : String) (s : Stmt) : Bool :=
  s.countMethodCalls m != 0

/-- Does the statement assign to the variable `v` (plain assignment or
attribute assignment on `v`)? -/
def Stmt.assignsTo (v : String) : Stmt → Bool
  | .assign t _ => t == v
  | .colsAssign o _ _ => o == v
  | .forStmt x _ b => x == v || b.assignsTo v
  | .ifStmt _ t e => t.assignsTo v || e.assignsTo v
  | .whileStmt _ b => b.assignsTo v
  | .tryStmt b h => b.assignsTo v || h.assignsTo v
  | _ => false

/-- Total number of calls to method `m` in the notebook. -/
def notebookMethodCallCount (m : String) : Nat :=
  (notebookStmts.map (Stmt.countMethodCalls m)).sum

/-- Modules imported by the notebook, in order. -/
def importedModules : List String :=
  notebookStmts.filterMap fun s =>
    match s with
    | .importAs m _ => some m
    | _ => none

/-- Is the statement `m` invoked on one of the two MCA model variables? -/
def invokedOnMCAInstance (m : String) : Bool :=
  notebookStmts.any (Stmt.hasCallOn "mca" m) ||
    notebookStmts.any (Stmt.hasCallOn "mca_no_one_hot" m)

/-! ### Step classification, for the ordering claim -/

/-- Step (a): a CSV read via `pd.read_csv`. -/
def isCsvReadStep (s : Stmt) : Bool := s.hasCallOn "pd" "read_csv"

/-- Step (b): one-hot encoding via `pd.get_dummies`. -/
def isOneHotStep (s : Stmt) : Bool := s.hasCallOn "pd" "get_dummies"

/-- Step (c): fitting of an MCA model object. -/
def isFitStep (s : Stmt) : Bool := s.callsMethod "fit"

/-- Step (d): retrieval of eigenvalues, coordinates, contributions or
cosine similarities from the fitted model. -/
def isRetrievalStep (s : Stmt) : Bool :=
  ["eigenvalues_summary", "row_coordinates", "column_coordinates",
   "row_contributions_", "column_contributions_",
   "row_cosine_similarities", "column_cosine_similarities"].any
    fun a => s.mentionsAttr a

/-- Step (e): the scatter-plot rendering. -/
def isPlotStep (s : Stmt) : Bool := s.callsMethod "plot"

/-- Index of the first statement satisfying `p`, as `List.findIdx`. -/
def firstIdx (p : Stmt → Bool) : Nat := notebookStmts.findIdx p

/-- Index of the last statement satisfying `p` (length of the list when
none does). -/
def lastIdx (p : Stmt → Bool) : Nat :=
  notebookStmts.length - 1 - notebookStmts.reverse.findIdx p

/-- The ordering the spec asserts: the CSV read strictly before all
one-hot encoding, all one-hot encoding strictly before all fitting, all
fitting strictly before all retrieval, all retrieval strictly before the
plot rendering, each step present, and no control flow anywhere. -/
def specClaimedOrder : Bool :=
  notebookStmts.any isCsvReadStep &&
  notebookStmts.any isOneHotStep &&
  notebookStmts.any isFitStep &&
  notebookStmts.any isRetrievalStep &&
  notebookStmts.any isPlotStep &&
  lastIdx isCsvReadStep < firstIdx isOneHotStep &&
  lastIdx isOneHotStep < firstIdx isFitStep &&
  lastIdx isFitStep < firstIdx isRetrievalStep &&
  lastIdx isRetrievalStep < firstIdx isPlotStep &&
  notebookStmts.all fun s => !s.isControlFlow

/-! ### Model of the library calls

The prince library's own sources are not part of this fragment (only the
notebook is), so the behaviour of the calls the notebook makes is
modelled from the specification's description of them. -/

/-- Modelled from the spec: the constructor parameters of `prince.MCA`
that the notebook sets.  The sources defining them are not in this
fragment; the parameter list is taken from the notebook's constructor
calls, with the defaults of the unset parameters taken from the spec's
description (`one_hot` defaults to performing the one-hot encoding,
`copy` defaults to copying). -/
structure MCAParams where
  n_components : Nat
  n_iter : Nat
  copy : Bool
  check_input : Bool
  engine : String
  random_state : Option Int
  one_hot : Bool
deriving DecidableEq, Repr

/-- Keyword lookup in a keyword-argument list. -/
def kwLookup (ks : List (String × Lit)) (k : String) : Option Lit :=
  (ks.find? fun kv => kv.1 == k).map fun kv => kv.2

/-- Read a boolean keyword argument, with a default. -/
def kwBool (ks : List (String × Lit)) (k : String) (d : Bool) : Bool :=
  match kwLookup ks k with
  | some (.bool b) => b
  | _ => d

/-- Read a natural-number keyword argument, with a default. -/
def kwNat (ks : List (String × Lit)) (k : String) (d : Nat) : Nat :=
  match kwLookup ks k with
  | some (.int n) => n.toNat
  | _ => d

/-- Read a string keyword argument, with a default. -/
def kwStr (ks : List (String × Lit)) (k : String) (d : String) : String :=
  match kwLookup ks k with
  | some (.str s) => s
  | _ => d

/-- Read an optional integer keyword argument (absent means `none`). -/
def kwIntOpt (ks : List (String × Lit)) (k : String) : Option Int :=
  match kwLookup ks k with
  | some (.int n) => some n
  | _ => none

/-- Modelled from the spec: the parameters a `prince.MCA(...)` call
constructs from its keyword arguments. -/
def paramsOfKwargs (ks : List (String × Lit)) : MCAParams :=
  ⟨kwNat ks "n_components" 2, kwNat ks "n_iter" 10, kwBool ks "copy" true,
   kwBool ks "check_input" true, kwStr ks "engine" "sklearn",
   kwIntOpt ks "random_state", kwBool ks "one_hot" true⟩

/-- Parameters of the notebook's primary MCA model. -/
def primaryParams : MCAParams := paramsOfKwargs primaryMCAKwargs

/-- Symbolic table values: how each table of the notebook was produced. -/
inductive DVal
  | csv (url : String)
  | withCols (d : DVal) (cols : List String)
  | dummies (d : DVal)
  | mutated (d : DVal)
deriving DecidableEq, Repr

/-- Modelled from the spec: the matrix an MCA fit hands to its
correspondence analysis.  The spec says fitting one-hot encodes the
dataset first, and that `one_hot=False` skips this encoding step. -/
def mcaInput (p : MCAParams) (d : DVal) : DVal :=
  if p.one_hot then .dummies d else d

/-- Modelled from the spec: the seed an MCA fit runs under.  A set
`random_state` fixes the seed; otherwise the run draws on ambient
entropy. -/
def mcaSeed (entropy : Int) (p : MCAParams) : Int :=
  p.random_state.getD entropy

/-- Modelled from the spec: one run of the fitting step.  The
correspondence analysis itself is an opaque deterministic computation
`ca` of the seed and the encoded input; the run chooses the seed from the
parameters (or the ambient entropy) and encodes the input as the
parameters direct. -/
def mcaFitRun {α : Type} (ca : Int → DVal → α) (entropy : Int)
    (p : MCAParams) (d : DVal) : α :=
  ca (mcaSeed entropy p) (mcaInput p d)

/-- Runtime values of the notebook's variables. -/
inductive PVal
  | module (name : String)
  | data (d : DVal)
  | model (p : MCAParams) (fitted : Option DVal)
  | display
deriving DecidableEq, Repr

/-- Variable environments, most recent binding first. -/
def Env := List (String × PVal)

/-- Look a variable up in the environment. -/
def lookupVar (env : Env) (v : String) : Option PVal :=
  (env.find? fun kv => kv.1 == v).map fun kv => kv.2

/-- Bind a variable in the environment. -/
def setVar (env : Env) (v : String) (x : PVal) : Env := (v, x) :: env

/-- The table value a positional-argument list denotes, when it is a
single variable holding a table. -/
def argData (env : Env) : List Arg → Option DVal
  | [.name v] =>
      match lookupVar env v with
      | some (.data d) => some d
      | _ => none
  | _ => none

/-- Modelled from the spec: evaluation of the notebook's expressions.
`pd.read_csv` acquires a table, `pd.get_dummies` derives the one-hot
matrix, `prince.MCA` builds a model from its keyword arguments, `fit`
returns the model fitted on the (encoded) input, and every other library
call or attribute renders a displayable result. -/
def evalExpr (env : Env) : Expr → PVal
  | .name v => (lookupVar env v).getD .display
  | .await e => evalExpr env e
  | .attr _ _ => .display
  | .call (.attr e g) args kwargs =>
      match evalExpr env e, g with
      | .module "pandas", "read_csv" =>
          match args with
          | [.str u] => .data (.csv u)
          | _ => .display
      | .module "pandas", "get_dummies" =>
          match argData env args with
          | some d => .data (.dummies d)
          | _ => .display
      | .module "prince", "MCA" => .model (paramsOfKwargs kwargs) none
      | .model p _, "fit" =>
          match argData env args with
          | some d => .model p (some (mcaInput p d))
          | _ => .display
      | _, _ => .display
  | .call _ _ _ => .display

/-- Modelled from the spec: the in-place effect of the expression on the
environment.  Only a `fit` on a model built with `copy=False` mutates its
input table; with `copy=True` (the notebook's setting) fitting leaves its
input untouched. -/
def fitEffects (env : Env) : Expr → Env
  | .call (.attr e "fit") args _ =>
      (match evalExpr env e, args with
       | .model p _, [.name v] =>
           if p.copy then env
           else
             match lookupVar env v with
             | some (.data d) => setVar env v (.data (.mutated d))
             | _ => env
       | _, _ => env)
  | .call (.attr e _) _ _ => fitEffects env e
  | .call f _ _ => fitEffects env f
  | .attr e _ => fitEffects env e
  | .await e => fitEffects env e
  | .name _ => env

/-- Execution of one statement as a transformation of the environment.
Control-flow statements do not occur in the notebook (proved below) and
are conservatively treated as leaving the environment unchanged. -/
def execStmt (env : Env) : Stmt → Env
  | .importAs m a => setVar env a (.module m)
  | .assign x e => setVar (fitEffects env e) x (evalExpr env e)
  | .colsAssign v f cols =>
      if f == "columns" then
        match lookupVar env v with
        | some (.data d) => setVar env v (.data (.withCols d cols))
        | _ => env
      else env
  | .exprStmt e => fitEffects env e
  | _ => env

/-- Execution of a statement list, left to right. -/
def execStmts (env : Env) (l : List Stmt) : Env := l.foldl execStmt env

/-- Environment after the first `n` statements of the notebook. -/
def envAfter (n : Nat) : Env := execStmts [] (notebookStmts.take n)

/-- The dataset's value after loading and renaming. -/
def loadedDataset : DVal := .withCols (.csv balloonsURL) balloonColumns

/-! ### Failure semantics

Statements may raise; `raiseAt` abstracts which do (a network fetch
error in `read_csv`, a malformed CSV, a library exception, ...).  A
`try` handler catches the failure of its body; nothing else does. -/

/-- Run one statement under an abstract raising oracle: a `try` catches
its body's failure and runs the handler; every other statement fails
exactly when the oracle says it does. -/
def runStmt {ε : Type} (raiseAt : Stmt → Option ε) : Stmt → Except ε Unit
  | .tryStmt body handler =>
      match runStmt raiseAt body with
      | .error _ => runStmt raiseAt handler
      | .ok _ => .ok ()
  | s =>
      match raiseAt s with
      | some e => .error e
      | none => .ok ()

/-- Run a statement list left to right, stopping at the first failure. -/
def runStmts {ε : Type} (raiseAt : Stmt → Option ε) : List Stmt → Except ε Unit
  | [] => .ok ()
  | s :: rest =>
      match runStmt raiseAt s with
      | .error e => .error e
      | .ok _ => runStmts raiseAt rest

/-- The handler-free run: the first failure propagates out unchanged,
with no opportunity to catch it. -/
def plainRun {ε : Type} (raiseAt : Stmt → Option ε) : List Stmt → Except ε Unit
  | [] => .ok ()
  | s :: rest =>
      match raiseAt s with
      | some e => .error e
      | none => plainRun raiseAt rest

/-! ### The tables the notebook displays

Transcribed from the notebook's recorded outputs: the component labels
of the eigenvalues summary and the column labels of each displayed
table. -/

/-- Component labels of the eigenvalues summary displayed by the
notebook. -/
def eigenvaluesSummaryComponents : List Nat := [0, 1, 2]

/-- Column labels of the displayed row-coordinates table. -/
def rowCoordinatesColumns : List Nat := [0, 1, 2]

/-- Column labels of the displayed column-coordinates table. -/
def columnCoordinatesColumns : List Nat := [0, 1, 2]

/-- Column labels of the displayed row cosine-similarities table. -/
def rowCosineSimilaritiesColumns : List Nat := [0, 1, 2]

/-- Column labels of the displayed column cosine-similarities table. -/
def columnCosineSimilaritiesColumns : List Nat := [0, 1, 2]

/-- The notebook's library calls that take the data table as their
positional argument. -/
def dataConsumingMethods : List String :=
  ["fit", "row_coordinates", "column_coordinates", "plot",
   "row_cosine_similarities", "column_cosine_similarities", "get_dummies"]

/-- Every call to a data-consuming method in the notebook passes the
`dataset` variable or its one-hot derivative `one_hot`. -/
def dataArgsOK : Bool :=
  notebookStmts.all fun s =>
    (s.exprs.map Expr.methodCallArgs).flatten.all fun ma =>
      !(dataConsumingMethods.contains ma.1) ||
        (ma.2 == [.name "dataset"] || ma.2 == [.name "one_hot"])

/-! ### Helper lemmas -/

/-- On a list whose top-level statements hold no `try`, the catching run
and the handler-free run agree: every failure propagates unchanged. -/
theorem runStmts_eq_plainRun {ε : Type} (raiseAt : Stmt → Option ε)
    (l : List Stmt) (h : l.all (fun s => !s.hasTry) = true) :
    runStmts raiseAt l = plainRun raiseAt l := by
  induction l with
  | nil => rfl
  | cons s rest ih =>
      simp only [List.all_cons, Bool.and_eq_true] at h
      have hs : runStmt raiseAt s =
          match raiseAt s with
          | some e => .error e
          | none => .ok () := by
        cases s <;> first
          | rfl
          | (exfalso; simp [Stmt.hasTry] at h)
      rw [runStmts, hs, plainRun]
      cases raiseAt s with
      | none => exact ih h.2
      | some e => rfl

/-- Execution of a concatenation is execution of the pieces in turn:
the run is a single sequential pass over the statements. -/
theorem execStmts_append (env : Env) (l₁ l₂ : List Stmt) :
    execStmts env (l₁ ++ l₂) = execStmts (execStmts env l₁) l₂ :=
  List.foldl_append _ _ _ _

/-- The `copy` modelling is not vacuous: fitting a model built with
`copy=False` does mutate its input table in the model. -/
theorem fit_without_copy_mutates :
    lookupVar
      (execStmt
        (setVar (setVar [] "m"
          (.model (paramsOfKwargs [("copy", .bool false)]) none)) "t"
          (.data loadedDataset))
        (.exprStmt (.call (.attr (.name "m") "fit") [.name "t"] [])))
      "t" = some (.data (.mutated loadedDataset)) := rfl

/-! ### The claims -/

/-- C1, counterexample: the spec's step order fails on the notebook.
The one-hot encoding (index 7) comes after the first fit (index 6), and
the retrieval of contributions and cosine similarities (indices 14-17)
comes after the scatter-plot rendering (index 13). -/
theorem c1_counterexample :
    specClaimedOrder = false ∧
    firstIdx isFitStep = 6 ∧ firstIdx isOneHotStep = 7 ∧
    firstIdx isPlotStep = 13 ∧ lastIdx isRetrievalStep = 17 := by decide

/-- C1, amended: the notebook's statements, in document order, perform a
CSV read (1), fitting of the primary MCA (6), one-hot encoding (7)
followed by fitting of a second MCA (9), retrieval of eigenvalues (10)
and row (11) and column (12) coordinates, the scatter-plot rendering
(13), then retrieval of row (14) and column (15) contributions and row
(16) and column (17) cosine similarities; and no statement is a
control-flow construct (no if, for, while, or try). -/
theorem c1_straight_line_order :
    firstIdx isCsvReadStep = 1 ∧
    firstIdx isFitStep = 6 ∧
    firstIdx isOneHotStep = 7 ∧ lastIdx isOneHotStep = 7 ∧
    lastIdx isFitStep = 9 ∧
    firstIdx (Stmt.mentionsAttr "eigenvalues_summary") = 10 ∧
    firstIdx (Stmt.mentionsAttr "row_coordinates") = 11 ∧
    firstIdx (Stmt.mentionsAttr "column_coordinates") = 12 ∧
    firstIdx isPlotStep = 13 ∧ lastIdx isPlotStep = 13 ∧
    firstIdx (Stmt.mentionsAttr "row_contributions_") = 14 ∧
    firstIdx (Stmt.mentionsAttr "column_contributions_") = 15 ∧
    firstIdx (Stmt.mentionsAttr "row_cosine_similarities") = 16 ∧
    firstIdx (Stmt.mentionsAttr "column_cosine_similarities") = 17 ∧
    notebookStmts.length = 18 ∧
    (notebookStmts.all fun s => !s.isControlFlow) = true := by decide

/-- C2, counterexample: `transform` is never invoked on an MCA instance
anywhere in the notebook, so the claim that each of fit, transform and
plot is invoked fails. -/
theorem c2_counterexample :
    (invokedOnMCAInstance "fit" && invokedOnMCAInstance "transform" &&
      invokedOnMCAInstance "plot") = false ∧
    notebookMethodCallCount "transform" = 0 := by decide

/-- C2, amended: the notebook loads a CSV, instantiates a
library-provided MCA object, and invokes `fit` and `plot` on MCA
instances; `transform` is never invoked. -/
theorem c2_loads_and_calls :
    (notebookStmts.any isCsvReadStep) = true ∧
    (notebookStmts.any (Stmt.hasCallOn "prince" "MCA")) = true ∧
    invokedOnMCAInstance "fit" = true ∧
    invokedOnMCAInstance "plot" = true ∧
    notebookMethodCallCount "transform" = 0 := by decide

/-- C3: the statement right after the CSV read assigns exactly the five
column names Color, Size, Action, Age, Inflated, in that order; every
later data-consuming library call receives the `dataset` table or its
one-hot derivative `one_hot`; and no later statement assigns to either
entity again. -/
theorem c3_dataset_shape_and_flow :
    notebookStmts[1]? =
      some (.assign "dataset"
        (.call (.attr (.name "pd") "read_csv") [.str balloonsURL] [])) ∧
    notebookStmts[2]? = some (.colsAssign "dataset" "columns" balloonColumns) ∧
    balloonColumns = ["Color", "Size", "Action", "Age", "Inflated"] ∧
    dataArgsOK = true ∧
    ((notebookStmts.drop 3).all fun s => !(s.assignsTo "dataset")) = true ∧
    ((notebookStmts.drop 8).all fun s => !(s.assignsTo "one_hot")) = true := by
  decide

/-- C4: the notebook derives `one_hot` from the dataset via
`pd.get_dummies`, constructs a second MCA with `one_hot=False`, and fits
it directly on the pre-encoded matrix; in the model of the fit the input
handed to the correspondence analysis is exactly that matrix, with no
further encoding applied. -/
theorem c4_one_hot_optional :
    notebookStmts[7]? =
      some (.assign "one_hot"
        (.call (.attr (.name "pd") "get_dummies") [.name "dataset"] [])) ∧
    notebookStmts[8]? =
      some (.assign "mca_no_one_hot"
        (.call (.attr (.name "prince") "MCA") [] [("one_hot", .bool false)])) ∧
    notebookStmts[9]? =
      some (.assign "mca_no_one_hot"
        (.call (.attr (.name "mca_no_one_hot") "fit") [.name "one_hot"] [])) ∧
    (paramsOfKwargs [("one_hot", .bool false)]).one_hot = false ∧
    lookupVar (envAfter 8) "one_hot" = some (.data (.dummies loadedDataset)) ∧
    mcaInput (paramsOfKwargs [("one_hot", .bool false)])
      (.dummies loadedDataset) = .dummies loadedDataset ∧
    lookupVar (envAfter 10) "mca_no_one_hot" =
      some (.model (paramsOfKwargs [("one_hot", .bool false)])
        (some (.dummies loadedDataset))) := by decide

/-- C5: no statement of the notebook contains a `try` handler, so under
every raising oracle the notebook's run equals the handler-free run: any
failure of any step propagates out unhandled, exactly as raised. -/
theorem c5_failures_propagate :
    ((notebookStmts.all fun s => !s.hasTry) = true) ∧
    ∀ (ε : Type) (raiseAt : Stmt → Option ε),
      runStmts raiseAt notebookStmts = plainRun raiseAt notebookStmts := by
  refine ⟨by decide, fun ε raiseAt => ?_⟩
  exact runStmts_eq_plainRun raiseAt notebookStmts (by decide)

/-- C6: `plot` is called exactly once in the whole notebook, and that
single call is `mca.plot(dataset, x_component=0, y_component=1)`. -/
theorem c6_single_plot :
    notebookMethodCallCount "plot" = 1 ∧
    notebookStmts[13]? =
      some (.exprStmt (.call (.attr (.name "mca") "plot") [.name "dataset"]
        [("x_component", .int 0), ("y_component", .int 1)])) := by decide

/-- C7: the primary MCA is constructed with `random_state=42`, so in the
model of the fit the seed is fixed and two runs of the fitting step on
the same input, under any ambient entropy and any deterministic
correspondence-analysis kernel, produce identical outputs. -/
theorem c7_fit_deterministic :
    kwIntOpt primaryMCAKwargs "random_state" = some 42 ∧
    primaryParams.random_state = some 42 ∧
    ∀ (α : Type) (ca : Int → DVal → α) (e₁ e₂ : Int) (d : DVal),
      mcaFitRun ca e₁ primaryParams d = mcaFitRun ca e₂ primaryParams d := by
  refine ⟨rfl, rfl, fun α ca e₁ e₂ d => rfl⟩

/-- C8: every statement of the notebook is a plain synchronous statement
(no control flow, no `await` anywhere), the only imported modules are
pandas and prince (no threading, multiprocessing or asyncio), and
execution is a single sequential pass: for every split point, running
the whole notebook equals running the prefix and then the suffix on the
resulting environment. -/
theorem c8_sequential_single_threaded :
    ((notebookStmts.all fun s => !s.isControlFlow) = true) ∧
    ((notebookStmts.all fun s => s.exprs.all fun e => !e.hasAwait) = true) ∧
    importedModules = ["pandas", "prince"] ∧
    ∀ (n : Nat) (env : Env),
      execStmts env notebookStmts =
        execStmts (execStmts env (notebookStmts.take n)) (notebookStmts.drop n) := by
  refine ⟨by decide, by decide, by decide, fun n env => ?_⟩
  rw [← execStmts_append, List.take_append_drop]

/-- C9: the primary MCA is constructed with `n_components=3`, and every
table the notebook displays respects this bound: the eigenvalues summary
lists exactly the components 0, 1, 2, and the row-coordinates,
column-coordinates, row cosine-similarities and column
cosine-similarities tables each carry exactly the three column labels
0, 1, 2. -/
theorem c9_three_components :
    kwNat primaryMCAKwargs "n_components" 2 = 3 ∧
    primaryParams.n_components = 3 ∧
    eigenvaluesSummaryComponents = List.range primaryParams.n_components ∧
    rowCoordinatesColumns = List.range primaryParams.n_components ∧
    columnCoordinatesColumns = List.range primaryParams.n_components ∧
    rowCosineSimilaritiesColumns = List.range primaryParams.n_components ∧
    columnCosineSimilaritiesColumns = List.range primaryParams.n_components := by
  decide

/-- C10: the primary MCA is constructed with `copy=True`, so in the model
fitting leaves the dataset untouched: after running the whole notebook
the `dataset` variable still holds the value it had right after loading
and renaming, and at each later call site (row coordinates, column
coordinates, plot, row and column cosine similarities) the `dataset`
argument evaluates to that same value. -/
theorem c10_fit_does_not_mutate_dataset :
    kwBool primaryMCAKwargs "copy" true = true ∧
    primaryParams.copy = true ∧
    lookupVar (envAfter 3) "dataset" = some (.data loadedDataset) ∧
    lookupVar (envAfter 18) "dataset" = some (.data loadedDataset) ∧
    evalExpr (envAfter 11) (.name "dataset") = .data loadedDataset ∧
    evalExpr (envAfter 12) (.name "dataset") = .data loadedDataset ∧
    evalExpr (envAfter 13) (.name "dataset") = .data loadedDataset ∧
    evalExpr (envAfter 16) (.name "dataset") = .data loadedDataset ∧
    evalExpr (envAfter 17) (.name "dataset") = .data loadedDataset := by decide

end MCANotebook
